import Mathlib

/-!
Verification of the mil-tracker classification-and-assessment pipeline.

The definitions below are a shallow embedding of the two Python source
files `generate_briefing.py` and `scripts/update_intel.py`:

* JSON numbers are modelled as rationals, machine strings as `String`,
  optional / possibly-missing JSON fields as `Option`;
* Python dictionaries (whose insertion order is observable, e.g. in the
  key set of the published `counts` object) are modelled as association
  lists with `lookupA` / `setA` mirroring `d.get(k)` / `d[k] = v`;
* external I/O (feed fetching, the generative backend, the clock) is
  passed in as explicit parameters, so the pipeline logic itself is a
  pure function of those inputs.
-/

/-- Association-list lookup, modelling Python `d.get(k)` on an
insertion-ordered dict. -/
def lookupA {α : Type} (k : String) : List (String × α) → Option α
  | [] => none
  | (k₂, v) :: rest => if k = k₂ then some v else lookupA k rest

/-- Association-list update, modelling Python `d[k] = v`: replaces the
value in place when the key is present, otherwise appends the new key at
the end (Python dicts preserve insertion order). -/
def setA {α : Type} (k : String) (v : α) : List (String × α) → List (String × α)
  | [] => [(k, v)]
  | (k₂, v₂) :: rest => if k = k₂ then (k, v) :: rest else (k₂, v₂) :: setA k v rest

/-- Model of `d[k] = d.get(k, 0) + 1` on a counter dict. -/
def bump (k : String) (d : List (String × ℕ)) : List (String × ℕ) :=
  setA k ((lookupA k d).getD 0 + 1) d

/-- Model of `sum(d.values())`. -/
def sumVals (d : List (String × ℕ)) : ℕ :=
  (d.map Prod.snd).sum

/-- Model of `list(d.keys())`. -/
def keysOf {α : Type} (d : List (String × α)) : List String :=
  d.map Prod.fst

/-- Auxiliary for `isSub`: is `p` a prefix of `t` (on character lists)? -/
def prefB : List Char → List Char → Bool
  | [], _ => true
  | _ :: _, [] => false
  | a :: as, b :: bs => a == b && prefB as bs

/-- Auxiliary for `isSub`: is `p` a contiguous sublist of `t`? -/
def subAux (p : List Char) : List Char → Bool
  | [] => p.isEmpty
  | c :: rest => prefB p (c :: rest) || subAux p rest

/-- Model of the Python substring test `p in t` on strings. -/
def isSub (p t : String) : Bool :=
  subAux p.data t.data

/-- Model of Python `sep.join(xs)`. -/
def joinSep (sep : String) : List String → String
  | [] => ""
  | [x] => x
  | x :: y :: rest => x ++ sep ++ joinSep sep (y :: rest)

/-- Python truthiness of a possibly-missing numeric field:
`None`/missing and `0` are falsy, every other number is truthy. -/
def truthyQ : Option ℚ → Bool
  | none => false
  | some q => q != 0

/-- ASCII whitespace, as stripped by Python `str.strip()` with no
arguments (the feeds only ever contain ASCII whitespace). -/
def isSpaceChar (c : Char) : Bool :=
  c == ' ' || c == '\t' || c == '\n' || c == '\r' || c == '\x0b' || c == '\x0c'

/-- Strip leading and trailing whitespace from a character list. -/
def trimChars (cs : List Char) : List Char :=
  ((cs.dropWhile isSpaceChar).reverse.dropWhile isSpaceChar).reverse

/-- Model of Python `s.strip()`. -/
def pyStrip (s : String) : String :=
  String.mk (trimChars s.data)

/-- Python `round` to an integer: round half to even. -/
def pyRound (q : ℚ) : ℤ :=
  let f := ⌊q⌋
  let r := q - (f : ℚ)
  if r < mkRat 1 2 then f
  else if r > mkRat 1 2 then f + 1
  else if f % 2 = 0 then f else f + 1

/-- Python `round(x, 2)` (idealised over ℚ: the result is the nearest
multiple of 1/100, ties to even). -/
def pyRound2 (q : ℚ) : ℚ :=
  (pyRound (q * 100) : ℚ) * mkRat 1 100

/-- Value of a single hexadecimal digit character, if it is one. -/
def hexDigitVal (c : Char) : Option ℕ :=
  if '0' ≤ c ∧ c ≤ '9' then some (c.toNat - '0'.toNat)
  else if 'a' ≤ c ∧ c ≤ 'f' then some (c.toNat - 'a'.toNat + 10)
  else if 'A' ≤ c ∧ c ≤ 'F' then some (c.toNat - 'A'.toNat + 10)
  else none

/-- Accumulate the value of a hex-digit string; fails on a non-digit. -/
def hexAccum (acc : ℕ) : List Char → Option ℕ
  | [] => some acc
  | c :: cs =>
    match hexDigitVal c with
    | none => none
    | some d => hexAccum (acc * 16 + d) cs

/-- Model of Python `int(s, 16)` as used on ADS-B hex identifiers:
surrounding whitespace is stripped, an optional sign and an optional
`0x`/`0X` prefix are accepted, then at least one hex digit is required.
(Python's underscore digit grouping is not modelled; no identifier in
the feeds uses it.)  Returns `none` where Python raises `ValueError`. -/
def pyIntHex (s : String) : Option ℤ :=
  let cs := trimChars s.data
  let signed : ℤ × List Char :=
    match cs with
    | '+' :: rest => (1, rest)
    | '-' :: rest => (-1, rest)
    | _ => (1, cs)
  let digits : List Char :=
    match signed.2 with
    | '0' :: 'x' :: rest => rest
    | '0' :: 'X' :: rest => rest
    | _ => signed.2
  match digits with
  | [] => none
  | _ => (hexAccum 0 digits).map (fun n => signed.1 * (n : ℤ))

/-- One raw aircraft record from the ADS-B feed (`generate_briefing.py`):
every field may be missing, numeric fields are rationals. -/
structure AircraftRecord where
  hex : Option String
  t : Option String
  lat : Option ℚ
  lon : Option ℚ
  gs : Option ℚ
  alt_baro : Option ℚ
  flight : Option String
deriving DecidableEq

/-- Function `get_group` (generate_briefing.py lines 64-73): country group from
the numeric value of the hex identifier; unparseable → "unknown",
outside all four ranges → "allied". -/
def get_group (hex_str : String) : String :=
  match pyIntHex hex_str with
  | none => "unknown"
  | some h =>
    if 0xA00000 ≤ h ∧ h ≤ 0xAFFFFF then "us"
    else if 0x730000 ≤ h ∧ h ≤ 0x737FFF then "iran"
    else if 0x100000 ≤ h ∧ h ≤ 0x13FFFF then "russia"
    else if 0x780000 ≤ h ∧ h ≤ 0x7BFFFF then "china"
    else "allied"

/-- Keyword list `fighters` from `get_type`. -/
def fighters : List String :=
  ["F15", "F16", "F18", "F22", "F35", "SU27", "SU30", "SU35", "MIG29",
   "J10", "J11", "J20", "A10"]

/-- Keyword list `transports` from `get_type`. -/
def transports : List String :=
  ["C17", "C130", "C30J", "C5", "IL76", "AN124", "Y20", "A400"]

/-- Keyword list `tankers` from `get_type`. -/
def tankers : List String :=
  ["KC10", "KC46", "KC135", "KC130", "MRTT", "IL78"]

/-- Keyword list `recon` from `get_type`. -/
def reconKws : List String :=
  ["P8", "P3", "RC135", "E3", "E6", "U2", "RQ4", "MQ9", "AWACS", "E737"]

/-- Keyword list `bombers` from `get_type`. -/
def bombers : List String :=
  ["B52", "B1", "B2", "TU95", "TU160", "H6"]

/-- Keyword list `helis` from `get_type`. -/
def helis : List String :=
  ["UH60", "AH64", "CH47", "CH53", "MH60", "MI17", "MI24"]

/-- The normalisation `(ac.get("t") or "").upper().replace(" ","").replace("-","")`. -/
def normType (o : Option String) : String :=
  String.mk (((o.getD "").data.map Char.toUpper).filter (fun c => !(c == ' ' || c == '-')))

/-- Function `get_type` (generate_briefing.py lines 75-95): ordered first-match
substring classification of the free-text type code.  The Python
`for p in kws: if p in t: return cat` loops are rendered as `List.any`
tests in the same fixed order. -/
def get_type (ac : AircraftRecord) : String :=
  let t := normType ac.t
  if fighters.any (fun p => isSub p t) then "fighter"
  else if tankers.any (fun p => isSub p t) then "tanker"
  else if bombers.any (fun p => isSub p t) then "bomber"
  else if reconKws.any (fun p => isSub p t) then "recon"
  else if transports.any (fun p => isSub p t) then "transport"
  else if helis.any (fun p => isSub p t) then "heli"
  else "other"

/-- One entry of the `adversary_details` list built by `analyze_aircraft`
(lines 107-116).  `alt = none` renders the `"?"` default, and
`speed = none` renders the `"?"` used when `gs` is falsy. -/
structure AdvDetail where
  country : String
  callsign : String
  type : String
  alt : Option ℚ
  speed : Option ℤ
  lat : ℚ
  lon : ℚ
deriving DecidableEq

/-- The adversary-detail dict appended for an iran/russia/china record. -/
def mkDetail (grp : String) (ac : AircraftRecord) : AdvDetail :=
  { country := grp
    callsign :=
      let f := pyStrip (ac.flight.getD "")
      if f = "" then ac.hex.getD "" else f
    type := ac.t.getD "?"
    alt := ac.alt_baro
    speed := if truthyQ ac.gs then some (pyRound (ac.gs.getD 0)) else none
    lat := pyRound2 (ac.lat.getD 0)
    lon := pyRound2 (ac.lon.getD 0) }

/-- The filter `a.get("lat") and a.get("lon")` (line 97): both
coordinates must be present and truthy (so a coordinate equal to 0 is
rejected, exactly as in Python). -/
def isPositioned (a : AircraftRecord) : Bool :=
  truthyQ a.lat && truthyQ a.lon

/-- The list `positioned = [a for a in aircraft if a.get("lat") and a.get("lon")]`. -/
def positionedOf (aircraft : List AircraftRecord) : List AircraftRecord :=
  aircraft.filter isPositioned

/-- Initial `counts` dict (line 98). -/
def initCounts : List (String × ℕ) :=
  [("us", 0), ("iran", 0), ("russia", 0), ("china", 0), ("allied", 0)]

/-- Initial `types` dict (line 99). -/
def initTypes : List (String × ℕ) :=
  [("fighter", 0), ("tanker", 0), ("recon", 0), ("bomber", 0),
   ("transport", 0), ("heli", 0), ("other", 0)]

/-- The `for ac in positioned` loop of `analyze_aircraft` (lines
102-116): one pass that bumps the country counter, bumps the type
counter, and appends an adversary-detail entry for iran/russia/china
records. -/
def tallyLoop : List AircraftRecord → List (String × ℕ) → List (String × ℕ) →
    List AdvDetail → List (String × ℕ) × List (String × ℕ) × List AdvDetail
  | [], counts, types, adv => (counts, types, adv)
  | ac :: rest, counts, types, adv =>
    let grp := get_group (ac.hex.getD "")
    let tp := get_type ac
    let adv₂ :=
      if grp = "iran" ∨ grp = "russia" ∨ grp = "china" then adv ++ [mkDetail grp ac]
      else adv
    tallyLoop rest (bump grp counts) (bump tp types) adv₂

/-- The `ZONES` table (lines 119-125): name, minLat, minLon, maxLat,
maxLon. -/
def ZONES : List (String × ℚ × ℚ × ℚ × ℚ) :=
  [("Strait of Hormuz", mkRat 51 2, mkRat 111 2, mkRat 55 2, mkRat 115 2),
   ("Persian Gulf", 24, 48, 30, 56),
   ("Taiwan Strait", 22, 117, 26, 121),
   ("South China Sea", 5, 108, 18, 121),
   ("Black Sea", 41, 27, 47, 42)]

/-- The zone loop (lines 126-131): for each zone in declared order,
emit `"<name>: <count> aircraft"` when at least one positioned record
lies inside the inclusive bounding box. -/
def zone_activity_of (positioned : List AircraftRecord) : List String :=
  ZONES.filterMap (fun z =>
    let inZone := positioned.filter (fun a =>
      decide (z.2.1 ≤ a.lat.getD 0 ∧ a.lat.getD 0 ≤ z.2.2.2.1 ∧
              z.2.2.1 ≤ a.lon.getD 0 ∧ a.lon.getD 0 ≤ z.2.2.2.2))
    if inZone ≠ [] then some (z.1 ++ ": " ++ toString inZone.length ++ " aircraft")
    else none)

/-- The analysis dict returned by `analyze_aircraft` for a non-empty
input (lines 133-142). -/
structure Analysis where
  total : ℕ
  counts : List (String × ℕ)
  types : List (String × ℕ)
  adversary_details : List AdvDetail
  zone_activity : List String
  tankers : ℕ
  bombers : ℕ
  recon : ℕ
deriving DecidableEq

/-- Assembly of the analysis dict from the positioned records. -/
def buildAnalysis (positioned : List AircraftRecord) : Analysis :=
  let folded := tallyLoop positioned initCounts initTypes []
  { total := positioned.length
    counts := folded.1
    types := folded.2.1
    adversary_details := folded.2.2.take 20
    zone_activity := zone_activity_of positioned
    tankers := (lookupA "tanker" folded.2.1).getD 0
    bombers := (lookupA "bomber" folded.2.1).getD 0
    recon := (lookupA "recon" folded.2.1).getD 0 }

/-- Function `analyze_aircraft` (lines 58-142).  `none` models the empty dict
`{}` returned for an empty (falsy) input list; every later consumer
reads fields with `.get(key, default)`, modelled by `Option.map`
followed by `getD`. -/
def analyze_aircraft (aircraft : List AircraftRecord) : Option Analysis :=
  if aircraft = [] then none
  else some (buildAnalysis (positionedOf aircraft))

/-- The detailed five-rule threat assessment computed inside
`generate_briefing_local` (lines 208-212), as a function of the bomber
count, the iran+russia+china count, and whether the zone-activity list
is non-empty.  Each `if` models one sequential reassignment of the
Python variable `threat`. -/
def threatDetailedCore (bomberCt advCt : ℕ) (zonesNonempty : Bool) : String :=
  let threat := "LOW"
  let threat := if bomberCt ≥ 1 then "ELEVATED" else threat
  let threat := if advCt ≥ 3 then "ELEVATED" else threat
  let threat := if zonesNonempty = true then "ELEVATED" else threat
  let threat := if bomberCt ≥ 2 ∧ zonesNonempty = true then "HIGH" else threat
  threat

/-- The detailed assessor applied to an analysis dict, reading the same
`.get` defaults as `generate_briefing_local`. -/
def threat_detailed (analysis : Option Analysis) : String :=
  let counts := (analysis.map Analysis.counts).getD []
  let types := (analysis.map Analysis.types).getD []
  let zones := (analysis.map Analysis.zone_activity).getD []
  threatDetailedCore ((lookupA "bomber" types).getD 0)
    ((lookupA "iran" counts).getD 0 + (lookupA "russia" counts).getD 0 +
      (lookupA "china" counts).getD 0)
    (decide (zones ≠ []))

/-- The compact three-tier assessor used for the document's
`threat_level` field (`run_once`, lines 277-278), as a function of the
`bombers`, `tankers` and `recon` fields and the truthiness of
`zone_activity`. -/
def threatCompactCore (bomberCt tankerCt reconCt : ℕ) (zonesNonempty : Bool) : String :=
  if bomberCt ≥ 1 ∨ zonesNonempty = true then "ELEVATED"
  else if tankerCt ≥ 3 ∨ reconCt ≥ 2 then "GUARDED"
  else "LOW"

/-- The compact assessor applied to the analysis dict, with the `.get`
defaults of `run_once`. -/
def threat_compact (analysis : Option Analysis) : String :=
  threatCompactCore ((analysis.map Analysis.bombers).getD 0)
    ((analysis.map Analysis.tankers).getD 0)
    ((analysis.map Analysis.recon).getD 0)
    (decide ((analysis.map Analysis.zone_activity).getD [] ≠ []))

/-- Rank of a threat-level string in the order LOW < GUARDED <
ELEVATED < HIGH. -/
def levelRank (s : String) : ℕ :=
  if s = "GUARDED" then 1
  else if s = "ELEVATED" then 2
  else if s = "HIGH" then 3
  else 0

/-- Function `generate_briefing_local` (lines 200-238): the deterministic
fallback composer.  The sequence of conditional `lines.append` calls is
rendered as a concatenation of conditional singleton lists (the head
line, the three indicator lines, the adversary line, the media line and
the closing watch line), joined with `"\n\n"`.  `list(set(...))` of the
adversary countries is rendered as `dedup` (the claims never inspect
the iteration order of the Python set). -/
def generate_briefing_local (analysis : Option Analysis) (headlines : List String) : String :=
  let counts := (analysis.map Analysis.counts).getD []
  let types := (analysis.map Analysis.types).getD []
  let zones := (analysis.map Analysis.zone_activity).getD []
  let adv := (analysis.map Analysis.adversary_details).getD []
  let total := (analysis.map Analysis.total).getD 0
  let threat := threat_detailed analysis
  let headLine :=
    "THREAT ASSESSMENT: " ++ threat ++ ". Currently tracking " ++ toString total ++
    " military aircraft globally across all monitored nations. US forces have " ++
    toString ((lookupA "us" counts).getD 0) ++
    " aircraft airborne. Allied partners account for " ++
    toString ((lookupA "allied" counts).getD 0) ++ " additional tracked assets."
  let tankerLines :=
    if (lookupA "tanker" types).getD 0 ≥ 3 then
      ["LOGISTICS INDICATOR: " ++ toString ((lookupA "tanker" types).getD 0) ++
       " aerial refueling tankers are currently airborne, suggesting extended-range operations are underway or being prepared. Tanker surges typically precede strike packages or long-duration ISR missions by 2-6 hours."]
    else []
  let reconLines :=
    if (lookupA "recon" types).getD 0 ≥ 2 then
      ["INTELLIGENCE COLLECTION: " ++ toString ((lookupA "recon" types).getD 0) ++
       " ISR and reconnaissance aircraft are active. Elevated recon activity typically indicates active target acquisition or battle damage assessment operations."]
    else []
  let bomberLines :=
    if (lookupA "bomber" types).getD 0 ≥ 1 then
      ["STRATEGIC INDICATOR: " ++ toString ((lookupA "bomber" types).getD 0) ++
       " strategic bomber(s) currently tracked airborne. Bomber deployments are high-visibility signals and may indicate signaling, training, or pre-strike positioning."]
    else []
  let advLines :=
    if adv ≠ [] then
      let countries := (adv.map AdvDetail.country).dedup
      ["ADVERSARY ACTIVITY: " ++ toString adv.length ++
       " adversary aircraft currently broadcasting: " ++ joinSep ", " countries ++ ". " ++
       (if zones ≠ [] then "Zone activity detected: " ++ joinSep "; " zones ++ "."
        else "No adversary aircraft in monitored chokepoints.")]
    else
      ["ADVERSARY ACTIVITY: No Iranian, Russian, or Chinese military aircraft currently broadcasting ADS-B. This is normal — adversary forces frequently operate with transponders off, particularly during sensitive operations."]
  let top_headlines := headlines.take 3
  let mediaLines :=
    if top_headlines ≠ [] then
      ["MEDIA SIGNALS: " ++ joinSep " | " (top_headlines.take 2)]
    else []
  let watchLines :=
    ["WATCH: Monitor tanker and ISR aircraft positioning relative to adversary territory. Any increase in adversary aircraft broadcasting combined with tanker surges warrants elevated attention."]
  joinSep "\n\n"
    ([headLine] ++ tankerLines ++ reconLines ++ bomberLines ++ advLines ++
     mediaLines ++ watchLines)

/-- Function `generate_briefing_ai` (lines 144-198).  The external OpenRouter
call is a collaborator: `backend` is the outcome of the whole
`try` block up to extracting `result["choices"][0]["message"]["content"]`
— `Except.ok s` is a successful extraction of the content string,
`Except.error ()` is any exception on the way (network error, timeout,
bad JSON, missing fields).  The prompt string built from the analysis
is only sent to the external service and cannot influence which branch
is taken, so it is not reproduced here.  `key` is `OPENROUTER_KEY`
(the empty string when the credential is absent, line 146). -/
def generate_briefing_ai (key : String) (backend : Except Unit String)
    (analysis : Option Analysis) (headlines : List String) : String :=
  if key = "" then generate_briefing_local analysis headlines
  else
    match backend with
    | Except.ok s => pyStrip s
    | Except.error _ => generate_briefing_local analysis headlines

/-- The `counts` object published in the document's `stats` block
(`run_once` line 283): `analysis.get("counts", {})`. -/
def stats_counts (analysis : Option Analysis) : List (String × ℕ) :=
  (analysis.map Analysis.counts).getD []

/-- A JSON value, for the intel-data document handled by
`scripts/update_intel.py`.  Objects are insertion-ordered key/value
lists, as in the Python `json` module. -/
inductive JVal where
  | jnull : JVal
  | jbool : Bool → JVal
  | jnum : ℚ → JVal
  | jstr : String → JVal
  | jarr : List JVal → JVal
  | jobj : List (String × JVal) → JVal

/-- One news item as assembled by `fetch_feed` and decorated with its
`categories` by `fetch_all_news` (`update_intel.py` lines 66-113). -/
structure NewsItem where
  title : String
  link : String
  published : String
  source : String
  categories : List String

/-- Model of Python `s.lower()` (ASCII titles). -/
def pyLower (s : String) : String :=
  String.mk (s.data.map Char.toLower)

/-- Table `DEPLOYMENT_KW` (update_intel.py lines 48-53). -/
def DEPLOYMENT_KW : List String :=
  ["carrier", "strike group", "csg", "arg", "deployed", "deployment", "transit",
   "destroyer", "submarine", "uss ", "naval", "fleet", "centcom", "fifth fleet",
   "5th fleet", "middle east", "persian gulf", "arabian sea", "red sea",
   "mediterranean", "israel", "iran", "houthi", "yemen", "iraq", "syria"]

/-- Table `EXERCISE_KW` (lines 55-58). -/
def EXERCISE_KW : List String :=
  ["exercise", "drills", "nato", "operation", "maneuver", "wargame",
   "iron dome", "juniper", "bright star"]

/-- Table `CONFLICT_KW` (lines 60-63). -/
def CONFLICT_KW : List String :=
  ["strike", "attack", "killed", "missile", "drone strike", "airstrike",
   "ceasefire", "offensive", "invasion", "escalat"]

/-- Function `categorize` (lines 89-98): non-exclusive keyword tagging of one
headline. -/
def categorize (title : String) : List String :=
  let t := pyLower title
  (if DEPLOYMENT_KW.any (fun k => isSub k t) then ["deployment"] else []) ++
  (if EXERCISE_KW.any (fun k => isSub k t) then ["exercise"] else []) ++
  (if CONFLICT_KW.any (fun k => isSub k t) then ["conflict"] else [])

/-- Function `compute_threat_indicators` (lines 139-150): the freshly computed
indicators dict; `now_iso` is the `datetime.now(timezone.utc).isoformat()`
value. -/
def compute_threat_indicators (news_items : List NewsItem) (now_iso : String) :
    List (String × JVal) :=
  [("deployment_articles",
     JVal.jnum (news_items.countP (fun i => decide ("deployment" ∈ i.categories)))),
   ("conflict_articles",
     JVal.jnum (news_items.countP (fun i => decide ("conflict" ∈ i.categories)))),
   ("exercise_articles",
     JVal.jnum (news_items.countP (fun i => decide ("exercise" ∈ i.categories)))),
   ("total_articles", JVal.jnum news_items.length),
   ("computed_at", JVal.jstr now_iso)]

/-- The JSON rendering of one news-ref item as stored in the document. -/
def itemJ (i : NewsItem) : JVal :=
  JVal.jobj
    [("title", JVal.jstr i.title), ("link", JVal.jstr i.link),
     ("published", JVal.jstr i.published), ("source", JVal.jstr i.source),
     ("categories", JVal.jarr (i.categories.map JVal.jstr))]

/-- The read `existing_indicators = data.get('_threat_indicators', ...)` (line
201).  A present value that is not a JSON object would make the Python
`in` test raise; the intel-data document always stores an object
there, so the other constructors are mapped to the empty dict. -/
def existingInd (data : List (String × JVal)) : List (String × JVal) :=
  match lookupA "_threat_indicators" data with
  | some (JVal.jobj kvs) => kvs
  | _ => []

/-- The numeric reading `data.get('version', 0)` (line 167).  A
non-numeric stored version would make Python's `+ 1` raise; the
document's version is always a number. -/
def verOf (v : Option JVal) : ℚ :=
  match v with
  | some (JVal.jnum q) => q
  | _ => 0

/-- Function `update_timestamp` (lines 165-168). -/
def update_timestamp (data : List (String × JVal)) (now_str : String) :
    List (String × JVal) :=
  let data := setA "generated_utc" (JVal.jstr now_str) data
  setA "version" (JVal.jnum (verOf (lookupA "version" data) + 1)) data

/-- The read-modify-write performed by `main` (lines 171-225) on a
successfully loaded document, as a pure function of the prior document
and the cycle's external inputs: `news_items` is the result of
`fetch_all_news()`, `gps_ok` tells whether `fetch_gps_status()`
returned data, `now_iso` / `gps_iso` / `now_str` are the three clock
readings (`computed_at`, the `_gps_last_fetch` stamp, and the
`generated_utc` stamp). -/
def mainUpdate (data0 : List (String × JVal)) (news_items : List NewsItem)
    (gps_ok : Bool) (now_iso gps_iso now_str : String) : List (String × JVal) :=
  let deployment_news := news_items.filter (fun i => decide ("deployment" ∈ i.categories))
  let conflict_news := news_items.filter (fun i => decide ("conflict" ∈ i.categories))
  let exercise_news := news_items.filter (fun i => decide ("exercise" ∈ i.categories))
  let data := setA "_naval_news_refs" (JVal.jarr ((deployment_news.take 10).map itemJ)) data0
  let data := setA "_conflict_news_refs" (JVal.jarr ((conflict_news.take 5).map itemJ)) data
  let data := setA "_exercise_news_refs" (JVal.jarr ((exercise_news.take 5).map itemJ)) data
  let new_indicators := compute_threat_indicators news_items now_iso
  let existing_indicators := existingInd data
  let new_indicators :=
    match lookupA "manual_override" existing_indicators with
    | some v => setA "manual_override" v new_indicators
    | none => new_indicators
  let new_indicators :=
    match lookupA "breaking_events" existing_indicators with
    | some v => setA "breaking_events" v new_indicators
    | none => new_indicators
  let data := setA "_threat_indicators" (JVal.jobj new_indicators) data
  let data := if gps_ok then setA "_gps_last_fetch" (JVal.jstr gps_iso) data else data
  update_timestamp data now_str

/-- The ordered category table of `get_type`, in the evaluation order
of the source: fighter, tanker, bomber, recon, transport, heli. -/
def typeCategoriesInOrder : List (String × List String) :=
  [("fighter", fighters), ("tanker", tankers), ("bomber", bombers),
   ("recon", reconKws), ("transport", transports), ("heli", helis)]

/-- The classifier as the specification words it: scan the category
table in its fixed order and return the first category one of whose
keywords occurs in the normalised code, `"other"` if none does.
(Stated from the spec, to be compared with `get_type`.) -/
def firstMatchSpec (code : Option String) : String :=
  let t := normType code
  match typeCategoriesInOrder.find? (fun cat => cat.2.any (fun p => isSub p t)) with
  | some cat => cat.1
  | none => "other"

/-- The worked example record of the spec: hex "AE1234", type "F16",
lat 26.0, lon 56.5, ground speed 450. -/
def exampleRecord : AircraftRecord :=
  { hex := some "AE1234", t := some "F16", lat := some 26, lon := some (mkRat 113 2),
    gs := some 450, alt_baro := none, flight := none }

/-- A record whose latitude is present but equal to 0 (falsy in
Python), with the other fields as in the worked example. -/
def latZeroRecord : AircraftRecord :=
  { hex := some "AE1234", t := some "F16", lat := some 0, lon := some (mkRat 113 2),
    gs := some 450, alt_baro := none, flight := none }

/-- A positioned record whose identifier "ZZZ" is not parseable as
hexadecimal, so `get_group` resolves it to "unknown". -/
def unknownHexRecord : AircraftRecord :=
  { hex := some "ZZZ", t := none, lat := some 1, lon := some 1,
    gs := none, alt_baro := none, flight := none }

/-- A positioned B-52 inside the Strait of Hormuz box (US hex range). -/
def b52Record : AircraftRecord :=
  { hex := some "AE0001", t := some "B52", lat := some 26, lon := some 56,
    gs := none, alt_baro := none, flight := none }

/-- A positioned B-1 inside the Strait of Hormuz box (US hex range). -/
def b1Record : AircraftRecord :=
  { hex := some "AE0002", t := some "B1", lat := some 26, lon := some 56,
    gs := none, alt_baro := none, flight := none }

theorem lookupA_setA_self {α : Type} (k : String) (v : α) (d : List (String × α)) :
    lookupA k (setA k v d) = some v := by
  induction d with
  | nil => simp [setA, lookupA]
  | cons hd tl ih =>
    obtain ⟨k₂, v₂⟩ := hd
    by_cases h : k = k₂
    · simp [setA, h, lookupA]
    · simp [setA, h, lookupA, ih]

theorem lookupA_setA_ne {α : Type} {k k₂ : String} (h : k ≠ k₂) (v : α)
    (d : List (String × α)) : lookupA k (setA k₂ v d) = lookupA k d := by
  induction d with
  | nil => simp [setA, lookupA, h]
  | cons hd tl ih =>
    obtain ⟨k₃, v₃⟩ := hd
    by_cases h₂ : k₂ = k₃
    · subst h₂
      simp [setA, lookupA, h, ih]
    · by_cases h₃ : k = k₃ <;> simp [setA, lookupA, h₂, h₃, ih]

theorem mem_keysOf_setA {α : Type} (k k₂ : String) (v : α) (d : List (String × α)) :
    k ∈ keysOf (setA k₂ v d) ↔ k ∈ keysOf d ∨ k = k₂ := by
  induction d with
  | nil => simp [setA, keysOf, eq_comm]
  | cons hd tl ih =>
    obtain ⟨k₃, v₃⟩ := hd
    by_cases h : k₂ = k₃
    · subst h
      simp [setA, keysOf, eq_comm] at *
      tauto
    · simp [setA, keysOf, h] at *
      tauto

theorem sumVals_bump (k : String) (d : List (String × ℕ)) :
    sumVals (bump k d) = sumVals d + 1 := by
  induction d with
  | nil => simp [bump, setA, lookupA, sumVals]
  | cons hd tl ih =>
    obtain ⟨k₂, v⟩ := hd
    by_cases h : k = k₂
    · simp [bump, setA, lookupA, h, sumVals]
      omega
    · simp only [bump, setA, lookupA, h, if_false, if_neg h] at *
      simp [sumVals] at *
      omega

theorem lookupA_bump_self (k : String) (d : List (String × ℕ)) :
    lookupA k (bump k d) = some ((lookupA k d).getD 0 + 1) :=
  lookupA_setA_self k _ d

theorem lookupA_bump_ne {k k₂ : String} (h : k ≠ k₂) (d : List (String × ℕ)) :
    lookupA k (bump k₂ d) = lookupA k d :=
  lookupA_setA_ne h _ d

/-- The country tally after the loop: membership in the key set of the
first component of `tallyLoop`. -/
theorem mem_keysOf_tallyLoop_counts (l : List AircraftRecord) :
    ∀ (c t : List (String × ℕ)) (a : List AdvDetail) (k : String),
      k ∈ keysOf (tallyLoop l c t a).1 ↔
        k ∈ keysOf c ∨ ∃ r ∈ l, get_group (r.hex.getD "") = k := by
  induction l with
  | nil => simp [tallyLoop]
  | cons ac rest ih =>
    intro c t a k
    simp only [tallyLoop]
    rw [ih]
    simp only [bump, mem_keysOf_setA, List.mem_cons]
    constructor
    · rintro (h | h)
      · rcases h with h | h
        · exact Or.inl h
        · exact Or.inr ⟨ac, Or.inl rfl, h.symm⟩
      · obtain ⟨r, hr, hg⟩ := h
        exact Or.inr ⟨r, Or.inr hr, hg⟩
    · rintro (h | ⟨r, hr | hr, hg⟩)
      · exact Or.inl (Or.inl h)
      · subst hr
        exact Or.inl (Or.inr hg.symm)
      · exact Or.inr ⟨r, hr, hg⟩

/-- The sums of both tally dicts each grow by exactly the number of
records folded in. -/
theorem sumVals_tallyLoop (l : List AircraftRecord) :
    ∀ (c t : List (String × ℕ)) (a : List AdvDetail),
      sumVals (tallyLoop l c t a).1 = sumVals c + l.length ∧
      sumVals (tallyLoop l c t a).2.1 = sumVals t + l.length := by
  induction l with
  | nil => simp [tallyLoop]
  | cons ac rest ih =>
    intro c t a
    simp only [tallyLoop]
    constructor
    · rw [(ih _ _ _).1, sumVals_bump]
      simp
      omega
    · rw [(ih _ _ _).2, sumVals_bump]
      simp
      omega

/-- Per-key count in the type tally: the stored value grows by the
number of records of that type. -/
theorem lookupA_tallyLoop_types (l : List AircraftRecord) :
    ∀ (c t : List (String × ℕ)) (a : List AdvDetail) (k : String),
      (lookupA k (tallyLoop l c t a).2.1).getD 0 =
        (lookupA k t).getD 0 + l.countP (fun r => get_type r == k) := by
  induction l with
  | nil => simp [tallyLoop]
  | cons ac rest ih =>
    intro c t a k
    simp only [tallyLoop]
    rw [ih]
    by_cases h : get_type ac = k
    · subst h
      rw [lookupA_bump_self]
      simp [List.countP_cons]
      omega
    · rw [lookupA_bump_ne (fun hh => h hh.symm)]
      simp [List.countP_cons, h]

/-- Classification `get_group` only ever returns one of its six literal tags. -/
theorem get_group_mem (s : String) :
    get_group s ∈ ["us", "iran", "russia", "china", "allied", "unknown"] := by
  unfold get_group
  cases pyIntHex s with
  | none => simp
  | some h =>
    simp only []
    split_ifs <;> simp

/-- A joined line list starting with a non-empty line is non-empty. -/
theorem joinSep_head_length (sep x : String) (xs : List String) :
    x.length ≤ (joinSep sep (x :: xs)).length := by
  cases xs with
  | nil => simp [joinSep]
  | cons y ys =>
    simp [joinSep, String.length_append]
    omega

theorem buildAnalysis_total (p : List AircraftRecord) :
    (buildAnalysis p).total = p.length := rfl

theorem buildAnalysis_counts (p : List AircraftRecord) :
    (buildAnalysis p).counts = (tallyLoop p initCounts initTypes []).1 := rfl

theorem buildAnalysis_types (p : List AircraftRecord) :
    (buildAnalysis p).types = (tallyLoop p initCounts initTypes []).2.1 := rfl

theorem buildAnalysis_zone (p : List AircraftRecord) :
    (buildAnalysis p).zone_activity = zone_activity_of p := rfl

theorem buildAnalysis_bombers (p : List AircraftRecord) :
    (buildAnalysis p).bombers =
      (lookupA "bomber" (tallyLoop p initCounts initTypes []).2.1).getD 0 := rfl

theorem analyze_aircraft_ne (l : List AircraftRecord) (h : l ≠ []) :
    analyze_aircraft l = some (buildAnalysis (positionedOf l)) := by
  simp [analyze_aircraft, h]

/-- C1 counterexample: on the spec's worked example record (hex
"AE1234", type "F16", lat 26.0, lon 56.5) the zone-activity list names
the Strait of Hormuz, not the Persian Gulf — lon 56.5 exceeds the
Persian Gulf box's maximum longitude 56.0. -/
theorem claim_C1_counterexample :
    (analyze_aircraft [exampleRecord]).map Analysis.zone_activity =
      some ["Strait of Hormuz: 1 aircraft"] ∧
    "Persian Gulf: 1 aircraft" ∉
      ((analyze_aircraft [exampleRecord]).map Analysis.zone_activity).getD [] := by
  constructor <;> decide

/-- C1 (amended): the pipeline classifies the worked example record as
CountryGroup US and AircraftType FIGHTER, and the resulting
zone-activity list reports zone "Strait of Hormuz" with a count of 1
(and no other zone). -/
theorem claim_C1_example_pipeline :
    get_group "AE1234" = "us" ∧ get_type exampleRecord = "fighter" ∧
    (analyze_aircraft [exampleRecord]).map Analysis.zone_activity =
      some ["Strait of Hormuz: 1 aircraft"] := by
  refine ⟨by decide, by decide, by decide⟩

/-- C2 counterexample: a record whose latitude is present with value 0
(and longitude present and non-zero) is NOT counted — the positioned
filter uses Python truthiness, so the analysis total is 0, not 1. -/
theorem claim_C2_counterexample :
    latZeroRecord.lat = some 0 ∧ latZeroRecord.lon = some (mkRat 113 2) ∧
    (analyze_aircraft [latZeroRecord]).map Analysis.total = some 0 := by
  refine ⟨rfl, rfl, by decide⟩

/-- C2 (amended): a record contributes to the Analysis aggregates if
and only if both its latitude and longitude are present AND non-zero
(Python truthiness): appending a record that fails this test to a
non-empty input leaves the whole analysis unchanged, while appending
one that passes it increments the total. -/
theorem claim_C2_truthy_positioning (l : List AircraftRecord) (r : AircraftRecord)
    (h : l ≠ []) :
    (isPositioned r = false → analyze_aircraft (l ++ [r]) = analyze_aircraft l) ∧
    (isPositioned r = true →
      (analyze_aircraft (l ++ [r])).map Analysis.total =
        (analyze_aircraft l).map (fun a => a.total + 1)) := by
  have hne : l ++ [r] ≠ [] := by simp
  constructor
  · intro hp
    rw [analyze_aircraft_ne _ hne, analyze_aircraft_ne _ h]
    simp [positionedOf, List.filter_append, List.filter_cons, hp]
  · intro hp
    rw [analyze_aircraft_ne _ hne, analyze_aircraft_ne _ h]
    simp [positionedOf, List.filter_append, List.filter_cons, hp, buildAnalysis_total]

/-- C2 witness: instantiation of the amended claim at the worked
example list and the lat-0 record. -/
theorem claim_C2_truthy_positioning_witness :
    (isPositioned latZeroRecord = false →
      analyze_aircraft ([exampleRecord] ++ [latZeroRecord]) = analyze_aircraft [exampleRecord]) ∧
    (isPositioned latZeroRecord = true →
      (analyze_aircraft ([exampleRecord] ++ [latZeroRecord])).map Analysis.total =
        (analyze_aircraft [exampleRecord]).map (fun a => a.total + 1)) :=
  claim_C2_truthy_positioning [exampleRecord] latZeroRecord (by simp)

/-- C3: for every non-empty input list, the sum of the per-country
counts equals the total, which equals the number of positioned records,
which equals the sum of the per-type counts. -/
theorem claim_C3_sum_invariant (l : List AircraftRecord) (h : l ≠ []) :
    ∃ a, analyze_aircraft l = some a ∧ sumVals a.counts = a.total ∧
      a.total = (positionedOf l).length ∧ sumVals a.types = a.total := by
  refine ⟨buildAnalysis (positionedOf l), analyze_aircraft_ne l h, ?_, rfl, ?_⟩
  · rw [buildAnalysis_counts, buildAnalysis_total,
      (sumVals_tallyLoop (positionedOf l) initCounts initTypes []).1]
    simp [sumVals, initCounts]
  · rw [buildAnalysis_types, buildAnalysis_total,
      (sumVals_tallyLoop (positionedOf l) initCounts initTypes []).2]
    simp [sumVals, initTypes]

/-- C3 witness: the invariant instantiated at the worked example list. -/
theorem claim_C3_sum_invariant_witness :
    ∃ a, analyze_aircraft [exampleRecord] = some a ∧ sumVals a.counts = a.total ∧
      a.total = (positionedOf [exampleRecord]).length ∧ sumVals a.types = a.total :=
  claim_C3_sum_invariant [exampleRecord] (by simp)

/-- The deterministic composer always produces non-empty text: its
first paragraph starts with the fixed "THREAT ASSESSMENT: " prefix. -/
theorem generate_briefing_local_length (analysis : Option Analysis)
    (headlines : List String) :
    0 < (generate_briefing_local analysis headlines).length := by
  have key : ∀ (s : String) (L : List String),
      0 < s.length → 0 < (joinSep "\n\n" (s :: L)).length :=
    fun s L hs => lt_of_lt_of_le hs (joinSep_head_length _ s L)
  unfold generate_briefing_local
  simp only [List.singleton_append, List.cons_append]
  apply key
  simp only [String.length_append]
  have h₁ : 0 < "THREAT ASSESSMENT: ".length := by decide
  omega

/-- C4: for every analysis and headline list, when the generative
backend credential is absent or the generative call fails in any way
(exception, timeout, malformed response), the briefing composer
returns exactly the deterministic composer's text, which is always
non-empty; the embedding is a total function, reflecting that the
composer never raises to its caller. -/
theorem claim_C4_composer_fallback (key : String) (backend : Except Unit String)
    (analysis : Option Analysis) (headlines : List String)
    (h : key = "" ∨ backend = Except.error ()) :
    generate_briefing_ai key backend analysis headlines =
      generate_briefing_local analysis headlines ∧
    0 < (generate_briefing_local analysis headlines).length := by
  constructor
  · rcases h with h | h
    · simp [generate_briefing_ai, h]
    · subst h
      unfold generate_briefing_ai
      by_cases hk : key = "" <;> simp [hk]
  · exact generate_briefing_local_length analysis headlines

/-- C4 witness: the fallback at the missing-credential instance. -/
theorem claim_C4_composer_fallback_witness :
    generate_briefing_ai "" (Except.error ()) none [] = generate_briefing_local none [] ∧
    0 < (generate_briefing_local none []).length :=
  claim_C4_composer_fallback "" (Except.error ()) none [] (Or.inl rfl)

theorem existingInd_setA_ne {k : String} (h : k ≠ "_threat_indicators") (v : JVal)
    (d : List (String × JVal)) : existingInd (setA k v d) = existingInd d := by
  unfold existingInd
  rw [lookupA_setA_ne (Ne.symm h)]

theorem lookupA_compute_manual (news : List NewsItem) (t : String) :
    lookupA "manual_override" (compute_threat_indicators news t) = none := by
  simp +decide [compute_threat_indicators, lookupA]

theorem lookupA_compute_breaking (news : List NewsItem) (t : String) :
    lookupA "breaking_events" (compute_threat_indicators news t) = none := by
  simp +decide [compute_threat_indicators, lookupA]

/-- C5: for every prior document and every batch of fresh news items,
the `_threat_indicators` object written by the update run agrees with
the prior document's `_threat_indicators` object on the keys
`manual_override` and `breaking_events` — present keys keep their
exact prior values, absent keys stay absent (the freshly computed
indicators never introduce them). -/
theorem claim_C5_preserved_indicators (data0 : List (String × JVal))
    (news_items : List NewsItem) (gps_ok : Bool) (now_iso gps_iso now_str : String) :
    ∃ kvs, lookupA "_threat_indicators"
        (mainUpdate data0 news_items gps_ok now_iso gps_iso now_str) =
        some (JVal.jobj kvs) ∧
      lookupA "manual_override" kvs = lookupA "manual_override" (existingInd data0) ∧
      lookupA "breaking_events" kvs = lookupA "breaking_events" (existingInd data0) := by
  simp only [mainUpdate, update_timestamp]
  rw [lookupA_setA_ne (by decide), lookupA_setA_ne (by decide)]
  rw [existingInd_setA_ne (by decide), existingInd_setA_ne (by decide),
    existingInd_setA_ne (by decide)]
  have hgps : ∀ (d : List (String × JVal)),
      lookupA "_threat_indicators"
        (if gps_ok then setA "_gps_last_fetch" (JVal.jstr gps_iso) d else d) =
      lookupA "_threat_indicators" d := by
    intro d
    cases gps_ok
    · simp
    · simp [lookupA_setA_ne (show "_threat_indicators" ≠ "_gps_last_fetch" by decide)]
  rw [hgps, lookupA_setA_self]
  refine ⟨_, rfl, ?_, ?_⟩
  · rcases hm : lookupA "manual_override" (existingInd data0) with _ | v
    · rcases hb : lookupA "breaking_events" (existingInd data0) with _ | w
      · simp [hm, hb, lookupA_compute_manual]
      · simp [hm, hb, lookupA_setA_ne (show "manual_override" ≠ "breaking_events" by decide),
          lookupA_compute_manual]
    · rcases hb : lookupA "breaking_events" (existingInd data0) with _ | w
      · simp [hm, hb, lookupA_setA_self]
      · simp [hm, hb, lookupA_setA_ne (show "manual_override" ≠ "breaking_events" by decide),
          lookupA_setA_self]
  · rcases hm : lookupA "manual_override" (existingInd data0) with _ | v
    · rcases hb : lookupA "breaking_events" (existingInd data0) with _ | w
      · simp [hm, hb, lookupA_compute_breaking]
      · simp [hm, hb, lookupA_setA_self]
    · rcases hb : lookupA "breaking_events" (existingInd data0) with _ | w
      · simp [hm, hb, lookupA_setA_ne (show "breaking_events" ≠ "manual_override" by decide),
          lookupA_compute_breaking]
      · simp [hm, hb, lookupA_setA_self]

theorem threatDetailedCore_two_bombers (advCt : ℕ) :
    threatDetailedCore 2 advCt true = "HIGH" := by
  unfold threatDetailedCore
  simp

theorem threatCompactCore_two_bombers (t r : ℕ) (z : Bool) :
    threatCompactCore 2 t r z = "ELEVATED" := by
  unfold threatCompactCore
  norm_num

/-- C6: for any input whose positioned records include exactly two of
bomber type (e.g. codes "B52" and "B1") while at least one monitored
zone has activity, the detailed five-rule assessor yields HIGH and the
compact assessor yields ELEVATED: the two rule sets disagree on this
input. -/
theorem claim_C6_assessor_divergence (l : List AircraftRecord)
    (h₂ : (positionedOf l).countP (fun r => get_type r == "bomber") = 2)
    (hz : ((analyze_aircraft l).map Analysis.zone_activity).getD [] ≠ []) :
    threat_detailed (analyze_aircraft l) = "HIGH" ∧
    threat_compact (analyze_aircraft l) = "ELEVATED" := by
  have hl : l ≠ [] := by
    rintro rfl
    simp [analyze_aircraft] at hz
  rw [analyze_aircraft_ne l hl] at hz ⊢
  have hb : (lookupA "bomber" (tallyLoop (positionedOf l) initCounts initTypes []).2.1).getD 0
      = 2 := by
    rw [lookupA_tallyLoop_types]
    have h₀ : (lookupA "bomber" initTypes).getD 0 = 0 := by decide
    rw [h₀, h₂]
  simp only [buildAnalysis_zone, Option.map_some', Option.getD_some] at hz
  constructor
  · unfold threat_detailed
    simp only [Option.map_some', Option.getD_some, buildAnalysis_types, buildAnalysis_zone,
      buildAnalysis_counts, hb, hz, decide_eq_true_eq, ne_eq, not_false_iff]
    simpa using threatDetailedCore_two_bombers
      ((lookupA "iran" (tallyLoop (positionedOf l) initCounts initTypes []).1).getD 0 +
        (lookupA "russia" (tallyLoop (positionedOf l) initCounts initTypes []).1).getD 0 +
        (lookupA "china" (tallyLoop (positionedOf l) initCounts initTypes []).1).getD 0)
  · unfold threat_compact
    simp only [Option.map_some', Option.getD_some, buildAnalysis_bombers, hb]
    exact threatCompactCore_two_bombers _ _ _

/-- C6 witness: a B-52 and a B-1 inside the Strait of Hormuz box. -/
theorem claim_C6_assessor_divergence_witness :
    threat_detailed (analyze_aircraft [b52Record, b1Record]) = "HIGH" ∧
    threat_compact (analyze_aircraft [b52Record, b1Record]) = "ELEVATED" :=
  claim_C6_assessor_divergence [b52Record, b1Record] (by decide) (by decide)

theorem rank_detailed (b a : ℕ) (z : Bool) :
    levelRank (threatDetailedCore b a z) =
      if b ≥ 2 ∧ z = true then 3 else if b ≥ 1 ∨ a ≥ 3 ∨ z = true then 2 else 0 := by
  unfold threatDetailedCore levelRank
  split_ifs <;> simp_all <;> omega

theorem rank_compact (b t r : ℕ) (z : Bool) :
    levelRank (threatCompactCore b t r z) =
      if b ≥ 1 ∨ z = true then 2 else if t ≥ 3 ∨ r ≥ 2 then 1 else 0 := by
  unfold threatCompactCore levelRank
  split_ifs <;> simp_all

/-- C7: both assessors are monotone non-decreasing (in the order LOW <
GUARDED < ELEVATED < HIGH) in the bomber count, in the adversary
(iran+russia+china) count, and in the zone-activity list growing from
empty to non-empty, holding the other inputs fixed.  (The compact
assessor does not read the adversary count at all, so it is constant —
hence trivially non-decreasing — in that input.) -/
theorem claim_C7_monotonicity (b b₂ a a₂ t r : ℕ) (z : Bool)
    (hb : b ≤ b₂) (ha : a ≤ a₂) :
    levelRank (threatDetailedCore b a z) ≤ levelRank (threatDetailedCore b₂ a z) ∧
    levelRank (threatDetailedCore b a z) ≤ levelRank (threatDetailedCore b a₂ z) ∧
    levelRank (threatDetailedCore b a false) ≤ levelRank (threatDetailedCore b a z) ∧
    levelRank (threatCompactCore b t r z) ≤ levelRank (threatCompactCore b₂ t r z) ∧
    levelRank (threatCompactCore b t r false) ≤ levelRank (threatCompactCore b t r z) := by
  simp only [rank_detailed, rank_compact]
  cases z <;>
    refine ⟨?_, ?_, ?_, ?_, ?_⟩ <;>
    · split_ifs <;> simp_all <;> omega

/-- C7 witness: instantiation at bomber count 0 → 1, adversary count
0 → 3, zone activity growing from empty to non-empty. -/
theorem claim_C7_monotonicity_witness :
    levelRank (threatDetailedCore 0 0 true) ≤ levelRank (threatDetailedCore 1 0 true) ∧
    levelRank (threatDetailedCore 0 0 true) ≤ levelRank (threatDetailedCore 0 3 true) ∧
    levelRank (threatDetailedCore 0 0 false) ≤ levelRank (threatDetailedCore 0 0 true) ∧
    levelRank (threatCompactCore 0 4 0 true) ≤ levelRank (threatCompactCore 1 4 0 true) ∧
    levelRank (threatCompactCore 0 4 0 false) ≤ levelRank (threatCompactCore 0 4 0 true) :=
  claim_C7_monotonicity 0 1 0 3 4 0 true (by decide) (by decide)

/-- C8: the aircraft-type classifier agrees everywhere with the
spec-side ordered-first-match scan over the category table (fighter,
tanker, bomber, recon, transport, heli; "other" if no list matches),
and in particular any code containing both a fighter-list and a
tanker-list substring resolves to FIGHTER. -/
theorem claim_C8_first_match (ac : AircraftRecord) :
    get_type ac = firstMatchSpec ac.t ∧
    ((∃ p ∈ fighters, isSub p (normType ac.t) = true) ∧
     (∃ p ∈ tankers, isSub p (normType ac.t) = true) →
      get_type ac = "fighter") := by
  constructor
  · simp only [get_type, firstMatchSpec, typeCategoriesInOrder]
    cases h₁ : fighters.any (fun p => isSub p (normType ac.t)) <;>
    cases h₂ : tankers.any (fun p => isSub p (normType ac.t)) <;>
    cases h₃ : bombers.any (fun p => isSub p (normType ac.t)) <;>
    cases h₄ : reconKws.any (fun p => isSub p (normType ac.t)) <;>
    cases h₅ : transports.any (fun p => isSub p (normType ac.t)) <;>
    cases h₆ : helis.any (fun p => isSub p (normType ac.t)) <;>
      simp [List.find?, h₁, h₂, h₃, h₄, h₅, h₆]
  · rintro ⟨⟨p, hp, hsub⟩, _⟩
    have h₁ : fighters.any (fun q => isSub q (normType ac.t)) = true :=
      List.any_eq_true.mpr ⟨p, hp, hsub⟩
    simp [get_type, h₁]

/-- C8 witness: the code "F16KC10" contains the fighter keyword "F16"
and the tanker keyword "KC10", and resolves to fighter. -/
theorem claim_C8_first_match_witness :
    ((∃ p ∈ fighters, isSub p (normType (some "F16KC10")) = true) ∧
     (∃ p ∈ tankers, isSub p (normType (some "F16KC10")) = true)) ∧
    get_type { hex := none, t := some "F16KC10", lat := none, lon := none,
               gs := none, alt_baro := none, flight := none } = "fighter" :=
  ⟨⟨⟨"F16", by decide, by decide⟩, ⟨"KC10", by decide, by decide⟩⟩,
    (claim_C8_first_match
      { hex := none, t := some "F16KC10", lat := none, lon := none,
        gs := none, alt_baro := none, flight := none }).2
      ⟨⟨"F16", by decide, by decide⟩, ⟨"KC10", by decide, by decide⟩⟩⟩

/-- C9 counterexample: one positioned record with the non-parseable
identifier "ZZZ" makes the published counts object carry SIX keys —
the tally line `counts[grp] = counts.get(grp, 0) + 1` inserts an
"unknown" key beyond the five initial ones. -/
theorem claim_C9_counterexample :
    keysOf (stats_counts (analyze_aircraft [unknownHexRecord])) =
      ["us", "iran", "russia", "china", "allied", "unknown"] ∧
    keysOf (stats_counts (analyze_aircraft [unknownHexRecord])) ≠
      ["us", "iran", "russia", "china", "allied"] := by
  constructor <;> decide

/-- C9 (amended): for every non-empty input, the published counts
object contains the five keys us, iran, russia, china, allied, plus
the extra key "unknown" exactly when some positioned record has a
non-parseable identifier, and no other key. -/
theorem claim_C9_counts_keys (l : List AircraftRecord) (k : String) (h : l ≠ []) :
    k ∈ keysOf (stats_counts (analyze_aircraft l)) ↔
      k ∈ ["us", "iran", "russia", "china", "allied"] ∨
      (k = "unknown" ∧ ∃ r ∈ positionedOf l, get_group (r.hex.getD "") = "unknown") := by
  rw [analyze_aircraft_ne l h]
  unfold stats_counts
  simp only [Option.map_some', Option.getD_some, buildAnalysis_counts]
  rw [mem_keysOf_tallyLoop_counts]
  constructor
  · rintro (hk | ⟨r, hr, hg⟩)
    · left
      simpa [initCounts, keysOf] using hk
    · have hmem := get_group_mem (r.hex.getD "")
      rw [hg] at hmem
      simp only [List.mem_cons, List.not_mem_nil, or_false] at hmem
      rcases hmem with h | h | h | h | h | h
      · left; simp [h]
      · left; simp [h]
      · left; simp [h]
      · left; simp [h]
      · left; simp [h]
      · right
        exact ⟨h, r, hr, hg.trans h⟩
  · rintro (hk | ⟨hk, r, hr, hg⟩)
    · left
      simpa [initCounts, keysOf] using hk
    · exact Or.inr ⟨r, hr, by rw [hg, hk]⟩

/-- C9 witness: the amended key-set description at the unparseable
record, for key "unknown". -/
theorem claim_C9_counts_keys_witness :
    "unknown" ∈ keysOf (stats_counts (analyze_aircraft [unknownHexRecord])) ↔
      "unknown" ∈ ["us", "iran", "russia", "china", "allied"] ∨
      ("unknown" = "unknown" ∧ ∃ r ∈ positionedOf [unknownHexRecord],
        get_group (r.hex.getD "") = "unknown") :=
  claim_C9_counts_keys [unknownHexRecord] "unknown" (by simp)

/-- C10: a successful update run rewrites only the keys
generated_utc, version, _naval_news_refs, _conflict_news_refs,
_exercise_news_refs, _threat_indicators and — only when the GPS fetch
succeeds — _gps_last_fetch; every other key of the prior document is
carried into the written document unchanged, and when the GPS fetch
fails _gps_last_fetch is also unchanged. -/
theorem claim_C10_frame (data0 : List (String × JVal)) (news_items : List NewsItem)
    (gps_ok : Bool) (now_iso gps_iso now_str : String) (k : String)
    (h : data0 ≠ [])
    (hk : k ∉ ["generated_utc", "version", "_naval_news_refs", "_conflict_news_refs",
      "_exercise_news_refs", "_threat_indicators", "_gps_last_fetch"]) :
    lookupA k (mainUpdate data0 news_items gps_ok now_iso gps_iso now_str) =
      lookupA k data0 ∧
    (gps_ok = false →
      lookupA "_gps_last_fetch" (mainUpdate data0 news_items gps_ok now_iso gps_iso now_str) =
        lookupA "_gps_last_fetch" data0) := by
  simp only [List.mem_cons, List.not_mem_nil, or_false, not_or] at hk
  obtain ⟨h₁, h₂, h₃, h₄, h₅, h₆, h₇⟩ := hk
  cases gps_ok with
  | false =>
    constructor
    · simp only [mainUpdate, update_timestamp, Bool.false_eq_true, if_false]
      rw [lookupA_setA_ne h₂, lookupA_setA_ne h₁, lookupA_setA_ne h₆,
        lookupA_setA_ne h₅, lookupA_setA_ne h₄, lookupA_setA_ne h₃]
    · intro
      simp only [mainUpdate, update_timestamp, Bool.false_eq_true, if_false]
      rw [lookupA_setA_ne (by decide), lookupA_setA_ne (by decide),
        lookupA_setA_ne (by decide), lookupA_setA_ne (by decide),
        lookupA_setA_ne (by decide), lookupA_setA_ne (by decide)]
  | true =>
    refine ⟨?_, by simp⟩
    simp only [mainUpdate, update_timestamp, if_true]
    rw [lookupA_setA_ne h₂, lookupA_setA_ne h₁, lookupA_setA_ne h₇,
      lookupA_setA_ne h₆, lookupA_setA_ne h₅, lookupA_setA_ne h₄, lookupA_setA_ne h₃]

/-- C10 witness: a baseline key survives an update run with a failed
GPS fetch. -/
theorem claim_C10_frame_witness :
    lookupA "troops_baseline"
        (mainUpdate [("troops_baseline", JVal.jnum 5)] [] false "a" "b" "c") =
      lookupA "troops_baseline" [("troops_baseline", JVal.jnum 5)] ∧
    (false = false →
      lookupA "_gps_last_fetch"
          (mainUpdate [("troops_baseline", JVal.jnum 5)] [] false "a" "b" "c") =
        lookupA "_gps_last_fetch" [("troops_baseline", JVal.jnum 5)]) :=
  claim_C10_frame [("troops_baseline", JVal.jnum 5)] [] false "a" "b" "c" "troops_baseline"
    (by simp) (by decide)
